import Mathlib

/-!
Verification of the p2p gossip / initial-sync core of the prysm repository.

The Go source is embedded shallowly:

* `src/unnamed/part_000` (package p2p, pubsub glue): `JoinTopic`,
  `LeaveTopic`, `PublishToTopic`, `SubscribeToTopic`, `msgIDFunction`.
* `src/beacon-chain/p2p/broadcaster.go`: `Broadcast`,
  `BroadcastAttestation`, `broadcastAttestation`, `broadcastObject`,
  `maxSubnetDiscoveryAttempts`.
* `src/beacon-chain/sync/initial-sync/blocks_fetcher_utils.go`:
  `nonSkippedSlotAfter`, `bestNonFinalizedSlot`,
  `calculateHeadAndTargetEpochs`.

External collaborators (the libp2p pubsub transport, the peer registry,
snappy, SHA-256, the encoder) are modelled as oracle fields of environment
structures: the embedded functions are parametric in them, exactly as the
Go code is parametric in the behaviour of those collaborators.  Machine
integers (`uint64`) are modelled as `Nat`; the only subtraction the code
performs is guarded (`upperBoundSlot -= slotsPerEpoch` under
`upperBoundSlot > slotsPerEpoch`), which claim C10 examines explicitly.
-/

namespace Prysm

/-! ## Pubsub topic registry (src/unnamed/part_000) -/

/-- State owned by the p2p Service that the topic functions touch:
the map of joined topics (`s.joinedTopics`), modelled as an association
list from topic strings to opaque topic handles (numbered). -/
structure TopicState where
  joinedTopics : List (String × Nat)
deriving DecidableEq, Repr

/-- Oracle for the underlying libp2p pubsub object: `s.pubsub.Join` may
fail or return a fresh handle.  External collaborator, out of scope. -/
structure PubsubEnv where
  join : String → Except Unit Nat

/-- Lookup in the joined-topics map (`s.joinedTopics[topic]`). -/
def lookupTopic (l : List (String × Nat)) (topic : String) : Option Nat :=
  (l.find? (fun p => p.1 = topic)).map (fun p => p.2)

/-- Embedding of `(*Service).JoinTopic` (src/unnamed/part_000 lines 15-28):
under the registry lock, if the topic is not in `joinedTopics`, call the
underlying `pubsub.Join` and store the handle; return the stored handle.
The third component counts how many times the underlying `pubsub.Join`
was invoked during this call. -/
def JoinTopic (env : PubsubEnv) (st : TopicState) (topic : String) :
    Except Unit Nat × TopicState × Nat :=
  match lookupTopic st.joinedTopics topic with
  | some h => (Except.ok h, st, 0)
  | none =>
    match env.join topic with
    | Except.error e => (Except.error e, st, 1)
    | Except.ok h => (Except.ok h, ⟨(topic, h) :: st.joinedTopics⟩, 1)

/-! ## PublishToTopic (src/unnamed/part_000 lines 46-70)

After joining the topic, the Go code loops: if `topicHandle.ListPeers()`
is non-empty it publishes; otherwise it checks `ctx.Done()` (returning
`ctx.Err()` if fired) and sleeps 100 ms before re-checking.  We model the
environment as two predicates indexed by the loop iteration: whether at
least one peer is listed on the topic mesh at that iteration, and whether
the caller's context is cancelled at that iteration.  Real-time sleeping
is abstracted into the iteration index; a fuel parameter bounds the
number of loop iterations we unfold (the Go loop itself is unbounded),
with exhaustion reported as a distinguished `diverged` outcome. -/

structure PublishEnv where
  joinResult : Except Unit Nat
  peersPresent : Nat → Bool
  cancelled : Nat → Bool

inductive PubResult where
  | published (step : Nat)
  | ctxCancelled (step : Nat)
  | joinFailed
  | diverged
deriving DecidableEq, Repr

/-- The peer-wait loop of `PublishToTopic`: at each iteration first check
for mesh peers (publish if any), then poll the cancellation channel, then
sleep and retry. -/
def publishLoop (env : PublishEnv) : Nat → Nat → PubResult
  | _, 0 => PubResult.diverged
  | i, fuel + 1 =>
    if env.peersPresent i then PubResult.published i
    else if env.cancelled i then PubResult.ctxCancelled i
    else publishLoop env (i + 1) fuel

/-- Embedding of `(*Service).PublishToTopic`: join (idempotently), then
run the peer-wait loop. -/
def PublishToTopic (env : PublishEnv) (fuel : Nat) : PubResult :=
  match env.joinResult with
  | Except.error _ => PubResult.joinFailed
  | Except.ok _ => publishLoop env 0 fuel

/-! ## Message-identifier function (src/unnamed/part_000 lines 94-104) -/

/-- Oracles for the message-id function: SHA-256 (`hashutil.Hash`),
snappy decoding (`snappy.Decode`, `none` = decode error), and the two
network domain constants.  All are external collaborators. -/
structure MsgIDEnv where
  hash : List Nat → List Nat
  snappyDecode : List Nat → Option (List Nat)
  domainValid : List Nat
  domainInvalid : List Nat

/-- Embedding of `msgIDFunction`: try snappy decoding; on success hash
the valid-snappy domain concatenated with the decoded data, otherwise
hash the invalid-snappy domain concatenated with the raw data; take the
first 20 bytes either way. -/
def msgIDFunction (env : MsgIDEnv) (data : List Nat) : List Nat :=
  match env.snappyDecode data with
  | none => (env.hash (env.domainInvalid ++ data)).take 20
  | some decodedData => (env.hash (env.domainValid ++ decodedData)).take 20

/-! ## Broadcaster (src/beacon-chain/p2p/broadcaster.go) -/

/-- The constant `maxSubnetDiscoveryAttempts` (broadcaster.go line 26):
max number of attempts to search the network for a specific subnet. -/
def maxSubnetDiscoveryAttempts : Nat := 3

/-- Error kinds surfaced by the broadcast paths: fork-digest retrieval
failure, `ErrMessageNotMapped`, encode failure, publish failure. -/
inductive BError where
  | forkDigestErr
  | messageNotMapped
  | encodeErr
  | publishErr
deriving DecidableEq, Repr

/-- Trace of one `broadcastObject` call: its returned error (if any) and
how many encode calls and how many `PublishToTopic` calls it made. -/
structure BTrace where
  result : Except BError Unit
  encodes : Nat
  publishes : Nat
deriving Repr

/-- Embedding of `(*Service).broadcastObject` (broadcaster.go lines
143-168): encode the object via the external encoder; on failure return
the encode error without publishing; otherwise publish once via
`PublishToTopic` and return its outcome.  The encoder and the publish
call are external collaborators, passed in as their outcomes. -/
def broadcastObject (encodeResult : Except Unit (List Nat))
    (publishResult : Except Unit Unit) : BTrace :=
  match encodeResult with
  | Except.error _ => ⟨Except.error BError.encodeErr, 1, 0⟩
  | Except.ok _ =>
    match publishResult with
    | Except.error _ => ⟨Except.error BError.publishErr, 1, 1⟩
    | Except.ok _ => ⟨Except.ok (), 1, 1⟩

/-- Environment of `Broadcast`: the fork-digest computation, the static
`GossipTypeMapping` table keyed by the message's runtime type (types are
numbered), and the outcomes of the external encode and publish calls. -/
structure BroadcastEnv where
  forkDigest : Except Unit (List Nat)
  gossipTypeMapping : Nat → Option String
  encodeResult : Except Unit (List Nat)
  publishResult : Except Unit Unit

/-- Embedding of `(*Service).Broadcast` (broadcaster.go lines 29-50):
resolve the fork digest (fail if unavailable), look the message type up
in `GossipTypeMapping` (fail with `ErrMessageNotMapped` if absent), then
call `broadcastObject` on the formatted topic. -/
def Broadcast (env : BroadcastEnv) (msgType : Nat) : BTrace :=
  match env.forkDigest with
  | Except.error _ => ⟨Except.error BError.forkDigestErr, 0, 0⟩
  | Except.ok _ =>
    match env.gossipTypeMapping msgType with
    | none => ⟨Except.error BError.messageNotMapped, 0, 0⟩
    | some _ => broadcastObject env.encodeResult env.publishResult

/-- How a discovery loop run ends when it does not find a peer:
the context expired, `FindPeersWithSubnet` returned an error, or all
attempts were used up (the "failed to find peers for subnet" error). -/
inductive DiscErr where
  | ctxDone
  | findFailed
  | exhausted
deriving DecidableEq, Repr

/-- Environment of the attestation broadcast: the fork-digest outcome
(resolved in `BroadcastAttestation` before spawning), whether
`hasPeerWithSubnet` holds at entry, per-attempt context expiry and
`FindPeersWithSubnet` outcomes, and the detached encode/publish
outcomes. -/
structure AttEnv where
  forkDigest : Except Unit (List Nat)
  hasPeer : Bool
  ctxErr : Nat → Bool
  findPeers : Nat → Except Unit Bool
  encodeResult : Except Unit (List Nat)
  publishResult : Except Unit Unit

/-- The retry loop of `broadcastAttestation` (broadcaster.go lines
104-126), run under the per-subnet exclusive lock: for each attempt,
first check `ctx.Err()`, then call `FindPeersWithSubnet`; propagate its
error, stop on success, otherwise retry; after the last attempt fail
with the exhausted error.  Returns the outcome and the number of
`FindPeersWithSubnet` calls made. -/
def discoveryLoop (env : AttEnv) : Nat → Nat → Except DiscErr Unit × Nat
  | _, 0 => (Except.error DiscErr.exhausted, 0)
  | i, rem + 1 =>
    if env.ctxErr i then (Except.error DiscErr.ctxDone, 0)
    else
      match env.findPeers i with
      | Except.error _ => (Except.error DiscErr.findFailed, 1)
      | Except.ok true => (Except.ok (), 1)
      | Except.ok false =>
        let r := discoveryLoop env (i + 1) rem
        (r.1, r.2 + 1)

/-- Trace of one detached `broadcastAttestation` task: the discovery
outcome, the number of `FindPeersWithSubnet` calls, and the trace of the
single `broadcastObject` call. -/
structure AttRun where
  discoveryResult : Except DiscErr Unit
  discoveryCalls : Nat
  broadcast : BTrace
deriving Repr

/-- Embedding of the detached `(*Service).broadcastAttestation`
(broadcaster.go lines 69-140): if a subnet peer is already known, skip
discovery; otherwise run the bounded discovery loop, logging (not
propagating) its error; in every case perform the encode+publish via
`broadcastObject` exactly once afterwards. -/
def broadcastAttestationRun (env : AttEnv) : AttRun :=
  if env.hasPeer then
    { discoveryResult := Except.ok ()
      discoveryCalls := 0
      broadcast := broadcastObject env.encodeResult env.publishResult }
  else
    let d := discoveryLoop env 0 maxSubnetDiscoveryAttempts
    { discoveryResult := d.1
      discoveryCalls := d.2
      broadcast := broadcastObject env.encodeResult env.publishResult }

/-- Embedding of `(*Service).BroadcastAttestation` (broadcaster.go lines
53-67): resolve the fork digest; on failure return the error having
spawned nothing (second component `none`); otherwise spawn the detached
task and return nil to the caller immediately. -/
def BroadcastAttestation (env : AttEnv) : Except BError Unit × Option AttRun :=
  match env.forkDigest with
  | Except.error _ => (Except.error BError.forkDigestErr, none)
  | Except.ok _ => (Except.ok (), some (broadcastAttestationRun env))

/-! ## Initial-sync blocks fetcher
(src/beacon-chain/sync/initial-sync/blocks_fetcher_utils.go) -/

/-- Modelled from the spec: `helpers.SlotToEpoch` is not under src/; the
spec's data model fixes `Epoch = Slot / SlotsPerEpoch`. -/
def SlotToEpoch (slotsPerEpoch slot : Nat) : Nat := slot / slotsPerEpoch

/-- Modelled from the spec: `helpers.StartSlot` is not under src/; it is
the inverse boundary map, first slot of an epoch, `epoch * SlotsPerEpoch`
(the Go version also reports uint64 overflow, which cannot occur on
`Nat`, so the error branch is omitted). -/
def StartSlot (slotsPerEpoch epoch : Nat) : Nat := epoch * slotsPerEpoch

/-- The fetcher's sync mode (`f.mode`). -/
inductive SyncMode where
  | stopOnFinalizedEpoch
  | stopOnHead
deriving DecidableEq, Repr

/-- Environment of `calculateHeadAndTargetEpochs` / `bestNonFinalizedSlot`:
local chain state (`f.chain`), network constants, and the external peer
registry oracles `BestFinalized` / `BestNonFinalized`, each mapping
(minPeers, minEpoch) to (epoch, peers). -/
structure CalcEnv where
  mode : SyncMode
  finalizedEpoch : Nat
  headSlot : Nat
  slotsPerEpoch : Nat
  maxPeersToSync : Nat
  minimumSyncPeers : Nat
  bestFinalized : Nat → Nat → Nat × List Nat
  bestNonFinalized : Nat → Nat → Nat × List Nat

/-- Embedding of `(*blocksFetcher).calculateHeadAndTargetEpochs`
(blocks_fetcher_utils.go lines 141-152): in finalized mode the head
epoch is the local finalized checkpoint epoch and the target comes from
`BestFinalized(MaxPeersToSync, headEpoch)`; otherwise the head epoch is
the epoch of the local head slot and the target comes from
`BestNonFinalized(MinimumSyncPeers, headEpoch)`. -/
def calculateHeadAndTargetEpochs (env : CalcEnv) : Nat × Nat × List Nat :=
  match env.mode with
  | SyncMode.stopOnFinalizedEpoch =>
    (env.finalizedEpoch,
      env.bestFinalized env.maxPeersToSync env.finalizedEpoch)
  | SyncMode.stopOnHead =>
    (SlotToEpoch env.slotsPerEpoch env.headSlot,
      env.bestNonFinalized env.minimumSyncPeers
        (SlotToEpoch env.slotsPerEpoch env.headSlot))

/-- Embedding of `(*blocksFetcher).bestNonFinalizedSlot`
(blocks_fetcher_utils.go lines 133-137): note this separate helper, not
`calculateHeadAndTargetEpochs`, is the one that passes
`MinimumSyncPeers*2` to the registry. -/
def bestNonFinalizedSlot (env : CalcEnv) : Nat :=
  (env.bestNonFinalized (env.minimumSyncPeers * 2)
      (SlotToEpoch env.slotsPerEpoch env.headSlot)).1 * env.slotsPerEpoch

/-- Errors of the non-skipped-slot search: `errSlotIsTooHigh`,
`errNoPeersAvailable`, the "invalid range for non-skipped slot" error,
filtering and transport errors (numbered), and a modelling-only marker
for unfolding the unbounded sparse loop past its fuel. -/
inductive FetchErr where
  | slotTooHigh
  | noPeersAvailable
  | invalidRange
  | filterFailed (code : Nat)
  | transport (code : Nat)
  | fuelOut
deriving DecidableEq, Repr

/-- A `BeaconBlocksByRangeRequest` sent to a peer, together with the
peer it was sent to. -/
structure Req where
  pid : Nat
  startSlot : Nat
  count : Nat
  step : Nat
deriving DecidableEq, Repr

/-- Environment of `nonSkippedSlotAfter`: the epoch-calculation
environment, the `filterPeers` transform (external: dedup, shuffle,
trim), the constant `nonSkippedSlotsFullSearchEpochs`, the
`requestBlocks` transport oracle (returning the slots of the blocks a
peer sends back — an untrusted peer may answer with any slots), and the
random source (`f.rand.Intn`, draw i). -/
structure FetcherEnv where
  calcEnv : CalcEnv
  filterPeers : List Nat → Except FetchErr (List Nat)
  fullSearchEpochs : Nat
  request : Req → Except FetchErr (List Nat)
  rand : Nat → Nat

/-- The scan inside the fetch closure (blocks_fetcher_utils.go lines
59-65): the first returned block whose slot exceeds the captured `slot`
variable, or the zero value when none does. -/
def firstSlotAbove (slot : Nat) (blocks : List Nat) : Nat :=
  match blocks.find? (fun b => decide (slot < b)) with
  | some b => b
  | none => 0

/-- The request built by the fetch closure: peer `peers[pidInd % len]`
with the given start/count/step. -/
def fetchReq (peers : List Nat) (pidInd start count step : Nat) : Req :=
  ⟨(peers.get? (pidInd % peers.length)).getD 0, start, count, step⟩

/-- The fetch closure (blocks_fetcher_utils.go lines 49-67): issue the
range request and return the first returned slot above the captured
`slot` (0 when no such block), propagating transport errors. -/
def fetch (env : FetcherEnv) (slot : Nat) (req : Req) : Except FetchErr Nat :=
  match env.request req with
  | Except.error e => Except.error e
  | Except.ok blocks => Except.ok (firstSlotAbove slot blocks)

/-- Dense stage (blocks_fetcher_utils.go lines 70-81): for
`ind := slot+1; ind < endSlot; ind += slotsPerEpoch`, fetch a full epoch
(`count = slotsPerEpoch, step = 1`) from the round-robin peer; return
the first hit above `slot`.  Returns (outcome, issued requests, final
pidInd); `fuel` bounds the unfolding (`fullSearchEpochs + 1` always
suffices, since each iteration advances `ind` by `slotsPerEpoch`). -/
def denseLoop (env : FetcherEnv) (peers : List Nat) (slot : Nat) :
    Nat → Nat → Nat → Nat → Except FetchErr (Option Nat) × List Req × Nat
  | ind, endSlot, pidInd, 0 =>
    if ind < endSlot then (Except.error FetchErr.fuelOut, [], pidInd)
    else (Except.ok none, [], pidInd)
  | ind, endSlot, pidInd, fuel + 1 =>
    if ind < endSlot then
      match fetch env slot (fetchReq peers pidInd ind env.calcEnv.slotsPerEpoch 1) with
      | Except.error e =>
        (Except.error e, [fetchReq peers pidInd ind env.calcEnv.slotsPerEpoch 1], pidInd)
      | Except.ok nextSlot =>
        if slot < nextSlot then
          (Except.ok (some nextSlot),
            [fetchReq peers pidInd ind env.calcEnv.slotsPerEpoch 1], pidInd)
        else
          match denseLoop env peers slot (ind + env.calcEnv.slotsPerEpoch) endSlot (pidInd + 1) fuel with
          | (r, reqs, p) =>
            (r, fetchReq peers pidInd ind env.calcEnv.slotsPerEpoch 1 :: reqs, p)
    else (Except.ok none, [], pidInd)

/-- Sparse stage (blocks_fetcher_utils.go lines 84-101): for
`ind := slot+1; ind < upperBound; ind += slotsPerEpoch²/2` (where `slot`
is the variable already advanced past the dense window), fetch a
half-epoch sample (`count = slotsPerEpoch/2, step = slotsPerEpoch`)
starting at a random offset within the first epoch of the stride; if the
hit is above `slot` and within the upper bound, it becomes the new upper
bound.  Returns (new upper bound or error, issued requests, final
pidInd).  `fuel = upperBound + 1` suffices whenever the stride is
positive; when the stride is zero (slotsPerEpoch ≤ 1) the Go loop does
not terminate, reported here as `fuelOut`. -/
def sparseLoop (env : FetcherEnv) (peers : List Nat) (slot : Nat) :
    Nat → Nat → Nat → Nat → Nat → Except FetchErr Nat × List Req × Nat
  | ind, upperBound, pidInd, _, 0 =>
    if ind < upperBound then (Except.error FetchErr.fuelOut, [], pidInd)
    else (Except.ok upperBound, [], pidInd)
  | ind, upperBound, pidInd, rIdx, fuel + 1 =>
    if ind < upperBound then
      match fetch env slot
          (fetchReq peers pidInd (ind + env.rand rIdx % env.calcEnv.slotsPerEpoch)
            (env.calcEnv.slotsPerEpoch / 2) env.calcEnv.slotsPerEpoch) with
      | Except.error e =>
        (Except.error e,
          [fetchReq peers pidInd (ind + env.rand rIdx % env.calcEnv.slotsPerEpoch)
            (env.calcEnv.slotsPerEpoch / 2) env.calcEnv.slotsPerEpoch], pidInd)
      | Except.ok nextSlot =>
        if slot < nextSlot ∧ nextSlot ≤ upperBound then
          (Except.ok nextSlot,
            [fetchReq peers pidInd (ind + env.rand rIdx % env.calcEnv.slotsPerEpoch)
              (env.calcEnv.slotsPerEpoch / 2) env.calcEnv.slotsPerEpoch], pidInd + 1)
        else
          match sparseLoop env peers slot
              (ind + env.calcEnv.slotsPerEpoch * env.calcEnv.slotsPerEpoch / 2)
              upperBound (pidInd + 1) (rIdx + 1) fuel with
          | (r, reqs, p) =>
            (r, fetchReq peers pidInd (ind + env.rand rIdx % env.calcEnv.slotsPerEpoch)
              (env.calcEnv.slotsPerEpoch / 2) env.calcEnv.slotsPerEpoch :: reqs, p)
    else (Except.ok upperBound, [], pidInd)

/-- Start slot of the final two-epoch fetch (blocks_fetcher_utils.go
lines 104-110): back the upper bound off by one epoch, but only when it
strictly exceeds `slotsPerEpoch`, then floor to the epoch boundary. -/
def exactStageStart (slotsPerEpoch upperBound : Nat) : Nat :=
  StartSlot slotsPerEpoch
    (SlotToEpoch slotsPerEpoch
      (if slotsPerEpoch < upperBound then upperBound - slotsPerEpoch else upperBound))

/-- Exact stage (blocks_fetcher_utils.go lines 103-122): one dense fetch
of two full epochs from the floored, backed-off upper bound; the result
must be at least the (advanced) `slot` and at most
`StartSlot(targetEpoch+1)`, else the invalid-range error. -/
def exactStage (env : FetcherEnv) (peers : List Nat)
    (slot pidInd upperBound targetEpoch : Nat) : Except FetchErr Nat × List Req :=
  match fetch env slot
      (fetchReq peers pidInd (exactStageStart env.calcEnv.slotsPerEpoch upperBound)
        (env.calcEnv.slotsPerEpoch * 2) 1) with
  | Except.error e =>
    (Except.error e,
      [fetchReq peers pidInd (exactStageStart env.calcEnv.slotsPerEpoch upperBound)
        (env.calcEnv.slotsPerEpoch * 2) 1])
  | Except.ok nextSlot =>
    if nextSlot < slot ∨ StartSlot env.calcEnv.slotsPerEpoch (targetEpoch + 1) < nextSlot then
      (Except.error FetchErr.invalidRange,
        [fetchReq peers pidInd (exactStageStart env.calcEnv.slotsPerEpoch upperBound)
          (env.calcEnv.slotsPerEpoch * 2) 1])
    else
      (Except.ok nextSlot,
        [fetchReq peers pidInd (exactStageStart env.calcEnv.slotsPerEpoch upperBound)
          (env.calcEnv.slotsPerEpoch * 2) 1])

/-- Embedding of `(*blocksFetcher).nonSkippedSlotAfter`
(blocks_fetcher_utils.go lines 21-123): compute head/target epochs and
candidate peers, exit early with `errSlotIsTooHigh` when the target does
not exceed the head, filter the peers (failing with
`errNoPeersAvailable` on an empty result), then run the dense, sparse
and exact stages.  The second component collects every block-range
request issued to a peer. -/
def nonSkippedSlotAfter (env : FetcherEnv) (slot : Nat) :
    Except FetchErr Nat × List Req :=
  if (calculateHeadAndTargetEpochs env.calcEnv).2.1 ≤
      (calculateHeadAndTargetEpochs env.calcEnv).1 then
    (Except.error FetchErr.slotTooHigh, [])
  else
    match env.filterPeers (calculateHeadAndTargetEpochs env.calcEnv).2.2 with
    | Except.error e => (Except.error e, [])
    | Except.ok peers =>
      if peers.length = 0 then (Except.error FetchErr.noPeersAvailable, [])
      else
        match denseLoop env peers slot (slot + 1)
            (slot + 1 + env.fullSearchEpochs * env.calcEnv.slotsPerEpoch) 0
            (env.fullSearchEpochs + 1) with
        | (Except.error e, reqs, _) => (Except.error e, reqs)
        | (Except.ok (some nextSlot), reqs, _) => (Except.ok nextSlot, reqs)
        | (Except.ok none, reqs, pidInd) =>
          match sparseLoop env peers
              (slot + env.fullSearchEpochs * env.calcEnv.slotsPerEpoch)
              (slot + env.fullSearchEpochs * env.calcEnv.slotsPerEpoch + 1)
              (StartSlot env.calcEnv.slotsPerEpoch
                ((calculateHeadAndTargetEpochs env.calcEnv).2.1 + 1))
              pidInd 0
              (StartSlot env.calcEnv.slotsPerEpoch
                ((calculateHeadAndTargetEpochs env.calcEnv).2.1 + 1) + 1) with
          | (Except.error e, reqs2, _) => (Except.error e, reqs ++ reqs2)
          | (Except.ok upperBound, reqs2, pidInd2) =>
            match exactStage env peers
                (slot + env.fullSearchEpochs * env.calcEnv.slotsPerEpoch)
                pidInd2 upperBound (calculateHeadAndTargetEpochs env.calcEnv).2.1 with
            | (Except.error e, reqs3) => (Except.error e, reqs ++ reqs2 ++ reqs3)
            | (Except.ok nextSlot, reqs3) => (Except.ok nextSlot, reqs ++ reqs2 ++ reqs3)

end Prysm

namespace Prysm

/-- C7: JoinTopic is idempotent: a second sequential JoinTopic on the same
topic returns the same handle, leaves the state unchanged, and performs
zero calls to the underlying pubsub Join. -/
theorem joinTopic_idempotent (env : PubsubEnv) (st st2 : TopicState)
    (topic : String) (h : Nat) (c : Nat)
    (hfirst : JoinTopic env st topic = (Except.ok h, st2, c)) :
    JoinTopic env st2 topic = (Except.ok h, st2, 0) := by
  unfold JoinTopic at hfirst ⊢
  cases hlk : lookupTopic st.joinedTopics topic with
  | some h0 =>
    rw [hlk] at hfirst
    simp only [Prod.mk.injEq, Except.ok.injEq] at hfirst
    obtain ⟨rfl, rfl, -⟩ := hfirst
    rw [hlk]
  | none =>
    rw [hlk] at hfirst
    cases hj : env.join topic with
    | error e => rw [hj] at hfirst; simp at hfirst
    | ok h1 =>
      rw [hj] at hfirst
      simp only [Prod.mk.injEq, Except.ok.injEq] at hfirst
      obtain ⟨hh, hst, -⟩ := hfirst
      subst hh
      have hlk2 : lookupTopic st2.joinedTopics topic = some h1 := by
        rw [← hst]
        simp [lookupTopic, List.find?]
      rw [hlk2]

/-- C7 witness: on a concrete pubsub environment and empty registry, a
successful join followed by a re-join returns the same handle without a
second underlying Join call. -/
theorem joinTopic_idempotent_witness :
    JoinTopic ⟨fun _ => Except.ok 7⟩ ⟨[("beacon_block", 7)]⟩ "beacon_block" =
      (Except.ok 7, ⟨[("beacon_block", 7)]⟩, 0) :=
  joinTopic_idempotent ⟨fun _ => Except.ok 7⟩ ⟨[]⟩ ⟨[("beacon_block", 7)]⟩
    "beacon_block" 7 1 rfl

/-- C5: PublishToTopic publishes only at an iteration where at least one
peer is listed on the topic mesh, and if it returns the context's
cancellation error at iteration i then the context was cancelled there
and no earlier iteration (nor i itself) had a peer, so nothing was ever
published. -/
theorem publishToTopic_peer_gate (env : PublishEnv) (fuel i : Nat) :
    (PublishToTopic env fuel = PubResult.published i → env.peersPresent i = true) ∧
    (PublishToTopic env fuel = PubResult.ctxCancelled i →
      env.cancelled i = true ∧ ∀ j, j ≤ i → env.peersPresent j = false) := by
  have key : ∀ (f s : Nat),
      (publishLoop env s f = PubResult.published i → env.peersPresent i = true) ∧
      (publishLoop env s f = PubResult.ctxCancelled i →
        env.cancelled i = true ∧ ∀ j, s ≤ j → j ≤ i → env.peersPresent j = false) := by
    intro f
    induction f with
    | zero => intro s; simp [publishLoop]
    | succ n ih =>
      intro s
      constructor
      · intro hrun
        unfold publishLoop at hrun
        by_cases hp : env.peersPresent s
        · simp only [hp, if_true] at hrun
          cases hrun
          exact hp
        · simp only [hp, if_false] at hrun
          by_cases hc : env.cancelled s
          · simp [hc] at hrun
          · simp only [hc, if_false] at hrun
            exact (ih (s + 1)).1 hrun
      · intro hrun
        unfold publishLoop at hrun
        by_cases hp : env.peersPresent s
        · simp [hp] at hrun
        · simp only [hp, if_false] at hrun
          by_cases hc : env.cancelled s
          · simp only [hc, if_true] at hrun
            cases hrun
            refine ⟨hc, ?_⟩
            intro j hsj hji
            have : j = i := le_antisymm hji hsj
            subst this
            exact Bool.eq_false_iff.mpr hp
          · simp only [hc, if_false] at hrun
            obtain ⟨h1, h2⟩ := (ih (s + 1)).2 hrun
            refine ⟨h1, ?_⟩
            intro j hsj hji
            rcases Nat.eq_or_lt_of_le hsj with rfl | hlt
            · exact Bool.eq_false_iff.mpr hp
            · exact h2 j hlt hji
  constructor
  · intro hrun
    unfold PublishToTopic at hrun
    cases hj : env.joinResult with
    | error e => rw [hj] at hrun; simp at hrun
    | ok h => rw [hj] at hrun; exact (key fuel 0).1 hrun
  · intro hrun
    unfold PublishToTopic at hrun
    cases hj : env.joinResult with
    | error e => rw [hj] at hrun; simp at hrun
    | ok h =>
      rw [hj] at hrun
      obtain ⟨h1, h2⟩ := (key fuel 0).2 hrun
      exact ⟨h1, fun j hji => h2 j (Nat.zero_le j) hji⟩

/-- C5 witness: a run where no peer ever appears and the context fires at
the third poll returns the cancellation outcome, with the cancellation
flag set and no peer present at any earlier iteration. -/
theorem publishToTopic_peer_gate_witness :
    decide (2 = 2) = true ∧ ∀ j, j ≤ 2 → (false : Bool) = false :=
  (publishToTopic_peer_gate
    ⟨Except.ok 0, fun _ => false, fun i => decide (i = 2)⟩ 10 2).2 rfl

/-- C6: the message-identifier function is pure and total: when snappy
decoding succeeds the id is the first 20 bytes of the hash of the
valid-snappy domain concatenated with the decoded bytes; when it fails,
the first 20 bytes of the hash of the invalid-snappy domain concatenated
with the raw bytes; and equal input bytes always yield equal ids. -/
theorem msgIDFunction_spec (env : MsgIDEnv) (data : List Nat) :
    (∀ d, env.snappyDecode data = some d →
      msgIDFunction env data = (env.hash (env.domainValid ++ d)).take 20) ∧
    (env.snappyDecode data = none →
      msgIDFunction env data = (env.hash (env.domainInvalid ++ data)).take 20) ∧
    (∀ data2, data = data2 → msgIDFunction env data = msgIDFunction env data2) := by
  refine ⟨?_, ?_, ?_⟩
  · intro d hd
    unfold msgIDFunction
    rw [hd]
  · intro hd
    unfold msgIDFunction
    rw [hd]
  · intro data2 hEq
    rw [hEq]

/-- C6 witness: a concrete environment where the hash is the identity and
decoding strips a leading zero byte; the valid branch, the invalid branch
and determinism are all checked on explicit bytes. -/
theorem msgIDFunction_spec_witness :
    msgIDFunction
        ⟨fun l => l, fun l => if l.head? = some 0 then some l.tail else none,
          [1], [0]⟩ [0, 5] = ([1, 5] : List Nat).take 20 :=
  (msgIDFunction_spec
    ⟨fun l => l, fun l => if l.head? = some 0 then some l.tail else none,
      [1], [0]⟩ [0, 5]).1 [5] rfl

/-- Helper: the discovery loop never calls FindPeersWithSubnet more often
than it has remaining attempts. -/
theorem discoveryLoop_calls_le (env : AttEnv) :
    ∀ rem i, (discoveryLoop env i rem).2 ≤ rem := by
  intro rem
  induction rem with
  | zero => intro i; simp [discoveryLoop]
  | succ n ih =>
    intro i
    unfold discoveryLoop
    by_cases hc : env.ctxErr i
    · simp [hc]
    · simp only [hc, if_false]
      cases hf : env.findPeers i with
      | error e => simp
      | ok b =>
        cases b
        · simpa using Nat.succ_le_succ (ih (i + 1))
        · simp

/-- C4: a detached attestation broadcast that starts with no known peer
on the subnet issues at most maxSubnetDiscoveryAttempts (= 3) subnet
discovery calls, and afterwards performs the encode+publish via exactly
one broadcastObject call, whatever the discovery attempts returned. -/
theorem broadcastAttestation_bounded_discovery (env : AttEnv)
    (h : env.hasPeer = false) :
    (broadcastAttestationRun env).discoveryCalls ≤ maxSubnetDiscoveryAttempts ∧
    (broadcastAttestationRun env).broadcast =
      broadcastObject env.encodeResult env.publishResult ∧
    (broadcastAttestationRun env).broadcast.encodes = 1 := by
  unfold broadcastAttestationRun
  rw [h]
  refine ⟨?_, ?_, ?_⟩
  · exact discoveryLoop_calls_le env maxSubnetDiscoveryAttempts 0
  · rfl
  · unfold broadcastObject
    cases env.encodeResult with
    | error e => rfl
    | ok v => cases env.publishResult with
      | error e => rfl
      | ok u => rfl

/-- C4 witness: no peer known, discovery fails on the first attempt and
succeeds on the second; at most 3 discovery calls are made and exactly
one broadcastObject (encode+publish) attempt follows. -/
theorem broadcastAttestation_bounded_discovery_witness :
    (broadcastAttestationRun
        ⟨Except.ok [0], false, fun _ => false,
          fun i => Except.ok (decide (i = 1)), Except.ok [2], Except.ok ()⟩).discoveryCalls ≤
      maxSubnetDiscoveryAttempts ∧
    (broadcastAttestationRun
        ⟨Except.ok [0], false, fun _ => false,
          fun i => Except.ok (decide (i = 1)), Except.ok [2], Except.ok ()⟩).broadcast =
      broadcastObject (Except.ok [2]) (Except.ok ()) ∧
    (broadcastAttestationRun
        ⟨Except.ok [0], false, fun _ => false,
          fun i => Except.ok (decide (i = 1)), Except.ok [2], Except.ok ()⟩).broadcast.encodes = 1 :=
  broadcastAttestation_bounded_discovery
    ⟨Except.ok [0], false, fun _ => false,
      fun i => Except.ok (decide (i = 1)), Except.ok [2], Except.ok ()⟩ rfl

/-- C8: when the fork digest is retrievable but the message's type is
absent from GossipTypeMapping, Broadcast returns the MessageNotMapped
error with zero encode calls and zero publish calls. -/
theorem broadcast_unmapped_type (env : BroadcastEnv) (msgType : Nat)
    (d : List Nat) (hd : env.forkDigest = Except.ok d)
    (hm : env.gossipTypeMapping msgType = none) :
    Broadcast env msgType = ⟨Except.error BError.messageNotMapped, 0, 0⟩ := by
  unfold Broadcast
  rw [hd, hm]

/-- C8 witness: a concrete environment with an empty mapping table. -/
theorem broadcast_unmapped_type_witness :
    Broadcast ⟨Except.ok [1, 2, 3, 4], fun _ => none, Except.ok [9], Except.ok ()⟩ 5 =
      ⟨Except.error BError.messageNotMapped, 0, 0⟩ :=
  broadcast_unmapped_type
    ⟨Except.ok [1, 2, 3, 4], fun _ => none, Except.ok [9], Except.ok ()⟩ 5
    [1, 2, 3, 4] rfl rfl

/-- C9: BroadcastAttestation fails synchronously exactly when the fork
digest is unavailable, in which case no detached task is spawned (so no
publish is attempted); in every other case it returns nil immediately
with the task spawned, and the value returned to the caller is ok
regardless of the discovery and publish outcomes inside the task. -/
theorem broadcastAttestation_caller_result (env : AttEnv) :
    (∀ e, env.forkDigest = Except.error e →
      BroadcastAttestation env = (Except.error BError.forkDigestErr, none)) ∧
    (∀ d, env.forkDigest = Except.ok d →
      BroadcastAttestation env = (Except.ok (), some (broadcastAttestationRun env))) := by
  constructor
  · intro e he
    unfold BroadcastAttestation
    rw [he]
  · intro d hd
    unfold BroadcastAttestation
    rw [hd]

/-- C9 witness: with a failing fork digest the caller gets the error and
no task record exists. -/
theorem broadcastAttestation_caller_result_witness :
    BroadcastAttestation
        ⟨Except.error (), true, fun _ => false, fun _ => Except.ok true,
          Except.ok [1], Except.ok ()⟩ =
      (Except.error BError.forkDigestErr, none) :=
  (broadcastAttestation_caller_result
    ⟨Except.error (), true, fun _ => false, fun _ => Except.ok true,
      Except.ok [1], Except.ok ()⟩).1 () rfl

/-- C3: when the computed target epoch does not exceed the computed head
epoch, nonSkippedSlotAfter fails immediately with the slot-too-high
error and issues no block-range request to any peer. -/
theorem nonSkippedSlotAfter_early_exit (env : FetcherEnv) (slot : Nat)
    (h : (calculateHeadAndTargetEpochs env.calcEnv).2.1 ≤
      (calculateHeadAndTargetEpochs env.calcEnv).1) :
    nonSkippedSlotAfter env slot = (Except.error FetchErr.slotTooHigh, []) := by
  unfold nonSkippedSlotAfter
  rw [if_pos h]

/-- A concrete fetcher environment where the peers' best vote equals the
local head epoch, so no forward search is possible. -/
def envNoProgress : FetcherEnv :=
  { calcEnv :=
      { mode := SyncMode.stopOnHead
        finalizedEpoch := 0
        headSlot := 0
        slotsPerEpoch := 32
        maxPeersToSync := 22
        minimumSyncPeers := 3
        bestFinalized := fun _ _ => (0, [])
        bestNonFinalized := fun _ _ => (0, [0]) }
    filterPeers := fun ps => Except.ok ps
    fullSearchEpochs := 2
    request := fun _ => Except.ok []
    rand := fun _ => 0 }

/-- C3 witness: on the concrete no-progress environment the call fails
with the slot-too-high error and the request log is empty. -/
theorem nonSkippedSlotAfter_early_exit_witness :
    nonSkippedSlotAfter envNoProgress 5 = (Except.error FetchErr.slotTooHigh, []) :=
  nonSkippedSlotAfter_early_exit envNoProgress 5 (by decide)

/-- A calculation environment whose registry oracles echo the minimum
peer count they were queried with as the returned epoch, making the
count passed by the code observable in the result. -/
def calcEnvEcho : CalcEnv :=
  { mode := SyncMode.stopOnHead
    finalizedEpoch := 0
    headSlot := 0
    slotsPerEpoch := 32
    maxPeersToSync := 22
    minimumSyncPeers := 3
    bestFinalized := fun minPeers _ => (minPeers, [])
    bestNonFinalized := fun minPeers _ => (minPeers, []) }

/-- C2 counterexample: with the echoing registry and MinimumSyncPeers = 3,
calculateHeadAndTargetEpochs in stopOnHead mode yields targetEpoch 3 —
the registry was queried with MinimumSyncPeers, not 2×MinimumSyncPeers
(a 2× query would have yielded 6, as the sibling bestNonFinalizedSlot,
which does pass MinimumSyncPeers*2, shows). -/
theorem calculateHeadAndTargetEpochs_single_min_count :
    (calculateHeadAndTargetEpochs calcEnvEcho).2.1 = calcEnvEcho.minimumSyncPeers ∧
    (calcEnvEcho.bestNonFinalized (2 * calcEnvEcho.minimumSyncPeers)
        (SlotToEpoch calcEnvEcho.slotsPerEpoch calcEnvEcho.headSlot)).1 = 6 ∧
    bestNonFinalizedSlot calcEnvEcho = 6 * calcEnvEcho.slotsPerEpoch ∧
    (calculateHeadAndTargetEpochs calcEnvEcho).2.1 ≠ 6 :=
  ⟨rfl, rfl, rfl, by decide⟩

/-- C2 (amended): in stopOnHead mode, calculateHeadAndTargetEpochs
returns headEpoch = epoch(local head slot) and obtains targetEpoch and
peers from the registry's best non-finalized vote queried with a minimum
peer count of MinimumSyncPeers (not doubled). -/
theorem calculateHeadAndTargetEpochs_stopOnHead (env : CalcEnv)
    (h : env.mode = SyncMode.stopOnHead) :
    calculateHeadAndTargetEpochs env =
      (SlotToEpoch env.slotsPerEpoch env.headSlot,
        env.bestNonFinalized env.minimumSyncPeers
          (SlotToEpoch env.slotsPerEpoch env.headSlot)) := by
  unfold calculateHeadAndTargetEpochs
  rw [h]

/-- C2 witness: the amended statement instantiated on the echoing
environment: head epoch 0, target epoch 3 with the empty peer list. -/
theorem calculateHeadAndTargetEpochs_stopOnHead_witness :
    calculateHeadAndTargetEpochs calcEnvEcho =
      (SlotToEpoch calcEnvEcho.slotsPerEpoch calcEnvEcho.headSlot,
        calcEnvEcho.bestNonFinalized calcEnvEcho.minimumSyncPeers
          (SlotToEpoch calcEnvEcho.slotsPerEpoch calcEnvEcho.headSlot)) :=
  calculateHeadAndTargetEpochs_stopOnHead calcEnvEcho rfl

/-- C10: every request the exact stage issues starts at
exactStageStart, which is a multiple of SlotsPerEpoch (an epoch-boundary
slot), and the one-epoch back-off is taken only when the upper bound
strictly exceeds SlotsPerEpoch, in which case the natural-number
subtraction is exact and positive — no unsigned underflow. -/
theorem exactStage_start_aligned (env : FetcherEnv) (peers : List Nat)
    (slot pidInd upperBound targetEpoch : Nat) :
    (∀ r, r ∈ (exactStage env peers slot pidInd upperBound targetEpoch).2 →
      r.startSlot = exactStageStart env.calcEnv.slotsPerEpoch upperBound ∧
      env.calcEnv.slotsPerEpoch ∣ r.startSlot) ∧
    (env.calcEnv.slotsPerEpoch < upperBound →
      0 < upperBound - env.calcEnv.slotsPerEpoch ∧
      upperBound - env.calcEnv.slotsPerEpoch + env.calcEnv.slotsPerEpoch = upperBound) := by
  constructor
  · intro r hr
    have hstart : r.startSlot = exactStageStart env.calcEnv.slotsPerEpoch upperBound := by
      unfold exactStage at hr
      split at hr
      · simp only [List.mem_singleton] at hr
        subst hr
        rfl
      · split at hr <;>
          (simp only [List.mem_singleton] at hr; subst hr; rfl)
    refine ⟨hstart, ?_⟩
    rw [hstart]
    unfold exactStageStart StartSlot
    exact dvd_mul_left env.calcEnv.slotsPerEpoch _
  · intro hlt
    exact ⟨Nat.sub_pos_of_lt hlt, Nat.sub_add_cancel hlt.le⟩

/-- C10 witness: on the no-progress environment with upper bound 100 the
request of the exact stage starts at slot 64, a multiple of 32, and the
guarded subtraction 100 - 32 is exact. -/
theorem exactStage_start_aligned_witness :
    ((fetchReq [0] 0 (exactStageStart 32 100) 64 1).startSlot =
        exactStageStart envNoProgress.calcEnv.slotsPerEpoch 100 ∧
      envNoProgress.calcEnv.slotsPerEpoch ∣
        (fetchReq [0] 0 (exactStageStart 32 100) 64 1).startSlot) ∧
    (0 < 100 - envNoProgress.calcEnv.slotsPerEpoch ∧
      100 - envNoProgress.calcEnv.slotsPerEpoch + envNoProgress.calcEnv.slotsPerEpoch = 100) :=
  ⟨(exactStage_start_aligned envNoProgress [0] 0 0 100 5).1
      (fetchReq [0] 0 (exactStageStart 32 100) 64 1) (by decide),
    (exactStage_start_aligned envNoProgress [0] 0 0 100 5).2 (by decide)⟩

/-- Helper: a hit returned by the dense stage always exceeds the
reference slot it was compared against. -/
theorem denseLoop_found_gt (env : FetcherEnv) (peers : List Nat) (slot : Nat) :
    ∀ fuel ind endSlot pidInd m,
      (denseLoop env peers slot ind endSlot pidInd fuel).1 = Except.ok (some m) →
      slot < m := by
  intro fuel
  induction fuel with
  | zero =>
    intro ind endSlot pidInd m h
    unfold denseLoop at h
    split at h <;> simp_all
  | succ f ih =>
    intro ind endSlot pidInd m h
    unfold denseLoop at h
    split at h
    · split at h
      · simp at h
      · split at h
        · rename_i nextSlot heq hlt
          simp only [Except.ok.injEq, Option.some.injEq] at h
          rw [← h]
          exact hlt
        · split at h
          rename_i hrec
          apply ih (ind + env.calcEnv.slotsPerEpoch) endSlot (pidInd + 1) m
          rw [hrec]
          exact h
    · simp at h

/-- Helper: a successful exact stage yields a slot between the advanced
reference slot and the start of the epoch after the target epoch. -/
theorem exactStage_ok_bounds (env : FetcherEnv) (peers : List Nat)
    (slot pidInd upperBound targetEpoch m : Nat)
    (h : (exactStage env peers slot pidInd upperBound targetEpoch).1 = Except.ok m) :
    slot ≤ m ∧ m ≤ StartSlot env.calcEnv.slotsPerEpoch (targetEpoch + 1) := by
  unfold exactStage at h
  split at h
  · simp at h
  · split at h
    · simp at h
    · rename_i nextSlot heq hcond
      simp only [Except.ok.injEq] at h
      subst h
      push_neg at hcond
      exact ⟨hcond.1, hcond.2⟩

/-- A fetcher environment violating the as-stated C1 bound: head epoch
0, target epoch 1 (last target slot 63), dense search over two epochs,
and a peer holding a block at slot 64, the first slot after the target
epoch; the dense stage returns it unchecked. -/
def envPastTarget : FetcherEnv :=
  { calcEnv :=
      { mode := SyncMode.stopOnHead
        finalizedEpoch := 0
        headSlot := 0
        slotsPerEpoch := 32
        maxPeersToSync := 22
        minimumSyncPeers := 3
        bestFinalized := fun _ _ => (0, [])
        bestNonFinalized := fun _ _ => (1, [0]) }
    filterPeers := fun ps => Except.ok ps
    fullSearchEpochs := 2
    request := fun r => if r.startSlot = 33 then Except.ok [64] else Except.ok []
    rand := fun _ => 0 }

/-- C1 counterexample: on envPastTarget, nonSkippedSlotAfter 0 succeeds
with 64, although the last slot of the target epoch is 63 — the dense
stage applies no upper bound, so the claimed `next ≤
endOfEpoch(targetEpoch)` fails (the block at 64 even lies inside the
honestly answered request range 33..64). -/
theorem nonSkippedSlotAfter_dense_exceeds_target :
    (nonSkippedSlotAfter envPastTarget 0).1 = Except.ok 64 ∧
    StartSlot envPastTarget.calcEnv.slotsPerEpoch
        ((calculateHeadAndTargetEpochs envPastTarget.calcEnv).2.1 + 1) - 1 = 63 ∧
    ¬(64 ≤ 63) :=
  ⟨rfl, rfl, by decide⟩

/-- C1 (amended): every successful nonSkippedSlotAfter result exceeds
the reference slot, in every stage; the target-epoch upper bound however
holds only for results produced after the dense stage, and in the
weakened form next ≤ startSlot(targetEpoch+1): when the dense stage
found nothing, the final result is bounded by the first slot after the
target epoch (one more than the claimed endOfEpoch bound, which the
exact-stage range check does not exclude). -/
theorem nonSkippedSlotAfter_result_bounds (env : FetcherEnv) (slot n : Nat)
    (reqs : List Req) (hK : 1 ≤ env.fullSearchEpochs)
    (hspe : 1 ≤ env.calcEnv.slotsPerEpoch)
    (h : nonSkippedSlotAfter env slot = (Except.ok n, reqs)) :
    slot < n ∧
    ∀ peers,
      env.filterPeers (calculateHeadAndTargetEpochs env.calcEnv).2.2 = Except.ok peers →
      (denseLoop env peers slot (slot + 1)
          (slot + 1 + env.fullSearchEpochs * env.calcEnv.slotsPerEpoch) 0
          (env.fullSearchEpochs + 1)).1 = Except.ok none →
      n ≤ StartSlot env.calcEnv.slotsPerEpoch
        ((calculateHeadAndTargetEpochs env.calcEnv).2.1 + 1) := by
  have hKs : slot < slot + env.fullSearchEpochs * env.calcEnv.slotsPerEpoch := by
    have := Nat.mul_le_mul hK hspe
    omega
  unfold nonSkippedSlotAfter at h
  split at h
  · simp at h
  · split at h
    · simp at h
    · rename_i peers hfilter
      split at h
      · simp at h
      · split at h
        · simp at h
        · -- dense stage found a slot
          rename_i nextSlot reqs0 p0 hdense
          simp only [Prod.mk.injEq, Except.ok.injEq] at h
          obtain ⟨rfl, -⟩ := h
          constructor
          · exact denseLoop_found_gt env peers slot _ _ _ _ nextSlot
              (by rw [hdense])
          · intro peers2 hfilter2 hdnone
            rw [hfilter] at hfilter2
            simp only [Except.ok.injEq] at hfilter2
            subst hfilter2
            rw [hdense] at hdnone
            simp at hdnone
        · -- dense stage found nothing, sparse then exact
          rename_i reqs0 pidInd hdense
          split at h
          · simp at h
          · rename_i upperBound reqs2 pidInd2 hsparse
            split at h
            · simp at h
            · rename_i nextSlot reqs3 hexact
              simp only [Prod.mk.injEq, Except.ok.injEq] at h
              obtain ⟨rfl, -⟩ := h
              have hb := exactStage_ok_bounds env peers
                (slot + env.fullSearchEpochs * env.calcEnv.slotsPerEpoch)
                pidInd2 upperBound (calculateHeadAndTargetEpochs env.calcEnv).2.1
                nextSlot (by rw [hexact])
              constructor
              · exact lt_of_lt_of_le hKs hb.1
              · intro peers2 hfilter2 hdnone
                exact hb.2

/-- A fetcher environment whose dense stage finds a block at slot 5
right away. -/
def envFoundEarly : FetcherEnv :=
  { calcEnv :=
      { mode := SyncMode.stopOnHead
        finalizedEpoch := 0
        headSlot := 0
        slotsPerEpoch := 32
        maxPeersToSync := 22
        minimumSyncPeers := 3
        bestFinalized := fun _ _ => (0, [])
        bestNonFinalized := fun _ _ => (1, [0]) }
    filterPeers := fun ps => Except.ok ps
    fullSearchEpochs := 2
    request := fun r => if r.startSlot = 1 then Except.ok [5] else Except.ok []
    rand := fun _ => 0 }

/-- C1 witness: on envFoundEarly the search from slot 0 succeeds with 5,
and the amended bounds hold there. -/
theorem nonSkippedSlotAfter_result_bounds_witness :
    0 < 5 ∧
    ∀ peers,
      envFoundEarly.filterPeers
          (calculateHeadAndTargetEpochs envFoundEarly.calcEnv).2.2 = Except.ok peers →
      (denseLoop envFoundEarly peers 0 (0 + 1)
          (0 + 1 + envFoundEarly.fullSearchEpochs * envFoundEarly.calcEnv.slotsPerEpoch) 0
          (envFoundEarly.fullSearchEpochs + 1)).1 = Except.ok none →
      5 ≤ StartSlot envFoundEarly.calcEnv.slotsPerEpoch
        ((calculateHeadAndTargetEpochs envFoundEarly.calcEnv).2.1 + 1) :=
  nonSkippedSlotAfter_result_bounds envFoundEarly 0 5
    [fetchReq [0] 0 1 32 1] (by decide) (by decide) rfl

end Prysm

